import Mathlib

/-
Shallow embedding of the DataCache class of
src/cmk/special_agents/v0_unstable/misc.py (Checkmk special-agent cache).

Python exceptions are modelled by the type Err below; `Except Err` plays the
role of "returns normally or raises".  The filesystem and the clock are
modelled by the structure FS, which fixes, for one call, what every
filesystem primitive used by the class would do (exists(), stat().st_mtime,
open()/read()/json.loads, mkdir, save_text_to_file) and what time.time()
returns.  Side effects are counted in the structure Effects.
-/

/- Model of the Python exception classes that occur in DataCache.
   `fileNotFound` is FileNotFoundError (a subclass of OSError), `osError n`
   any other OSError (n distinguishes different errors), `valueError` covers
   ValueError (json.JSONDecodeError, UnicodeDecodeError), `typeError` the
   TypeError raised by json.dumps on a non-serializable object, and `exc n`
   an arbitrary other exception (e.g. raised by get_live_data). -/
inductive Err where
  | fileNotFound : Err
  | osError : Nat → Err
  | valueError : Err
  | typeError : Err
  | exc : Nat → Err
deriving DecidableEq

/- The exception classes caught by `except (OSError, ValueError)` around
   get_cached_data in get_data.  FileNotFoundError is a subclass of OSError. -/
def caughtReadErr : Err → Bool
  | Err.fileNotFound => true
  | Err.osError _ => true
  | Err.valueError => true
  | _ => false

/- The exception classes caught by `except (OSError, TypeError)` around
   _write_to_cache in get_data. -/
def caughtWriteErr : Err → Bool
  | Err.fileNotFound => true
  | Err.osError _ => true
  | Err.typeError => true
  | _ => false

/- JSON values: what json.loads can produce / json.dumps can emit. -/
mutual
inductive JVal where
  | null : JVal
  | bool : Bool → JVal
  | num : Int → JVal
  | str : String → JVal
  | arr : JList → JVal
  | obj : JObj → JVal
inductive JList where
  | nil : JList
  | cons : JVal → JList → JList
inductive JObj where
  | nil : JObj
  | cons : String → JVal → JObj → JObj
end

/- Python values handled by the cache: the JSON-native types, plus
   datetime.datetime objects (carried as their str(obj) rendering, which is
   all json.dumps with datetime_serializer ever looks at), plus `other`,
   an object that is neither JSON-serializable nor a datetime. -/
mutual
inductive PyVal where
  | null : PyVal
  | bool : Bool → PyVal
  | num : Int → PyVal
  | str : String → PyVal
  | datetime : String → PyVal
  | other : PyVal
  | arr : PyList → PyVal
  | obj : PyObj → PyVal
inductive PyList where
  | nil : PyList
  | cons : PyVal → PyList → PyList
inductive PyObj where
  | nil : PyObj
  | cons : String → PyVal → PyObj → PyObj
end

/- misc.py, datetime_serializer: the `default=` hook handed to json.dumps.
   `if isinstance(obj, datetime.datetime): return str(obj)` else raise
   TypeError. -/
def datetime_serializer : PyVal → Except Unit PyVal
  | PyVal.datetime s => Except.ok (PyVal.str s)
  | _ => Except.error ()

/- What json.dumps does with a non-JSON-native object: call the default hook
   and serialize its result.  datetime_serializer only ever returns a Python
   string, which dumps emits as a JSON string. -/
def serializeDefault (v : PyVal) : Except Unit JVal :=
  match datetime_serializer v with
  | Except.ok (PyVal.str t) => Except.ok (JVal.str t)
  | _ => Except.error ()

/- json.dumps(raw_content, default=datetime_serializer): JSON-native values
   are emitted structurally, non-native ones go through the default hook;
   a TypeError (modelled as Except.error ()) aborts the whole dump. -/
mutual
def serializeVal : PyVal → Except Unit JVal
  | PyVal.null => Except.ok JVal.null
  | PyVal.bool b => Except.ok (JVal.bool b)
  | PyVal.num n => Except.ok (JVal.num n)
  | PyVal.str s => Except.ok (JVal.str s)
  | PyVal.datetime s => serializeDefault (PyVal.datetime s)
  | PyVal.other => serializeDefault PyVal.other
  | PyVal.arr l =>
      match serializeList l with
      | Except.ok js => Except.ok (JVal.arr js)
      | Except.error e => Except.error e
  | PyVal.obj o =>
      match serializeObj o with
      | Except.ok jo => Except.ok (JVal.obj jo)
      | Except.error e => Except.error e
def serializeList : PyList → Except Unit JList
  | PyList.nil => Except.ok JList.nil
  | PyList.cons v l =>
      match serializeVal v with
      | Except.error e => Except.error e
      | Except.ok j =>
          match serializeList l with
          | Except.error e => Except.error e
          | Except.ok js => Except.ok (JList.cons j js)
def serializeObj : PyObj → Except Unit JObj
  | PyObj.nil => Except.ok JObj.nil
  | PyObj.cons k v o =>
      match serializeVal v with
      | Except.error e => Except.error e
      | Except.ok j =>
          match serializeObj o with
          | Except.error e => Except.error e
          | Except.ok jo => Except.ok (JObj.cons k j jo)
end

/- The Python value json.loads builds back from a JSON document. -/
mutual
def jvalToPy : JVal → PyVal
  | JVal.null => PyVal.null
  | JVal.bool b => PyVal.bool b
  | JVal.num n => PyVal.num n
  | JVal.str s => PyVal.str s
  | JVal.arr l => PyVal.arr (jlistToPy l)
  | JVal.obj o => PyVal.obj (jobjToPy o)
def jlistToPy : JList → PyList
  | JList.nil => PyList.nil
  | JList.cons j l => PyList.cons (jvalToPy j) (jlistToPy l)
def jobjToPy : JObj → PyObj
  | JObj.nil => PyObj.nil
  | JObj.cons k j o => PyObj.cons k (jvalToPy j) (jobjToPy o)
end

/- Spec-side definition, from the round-trip sentence of the spec: the value
   with every datetime-typed sub-value replaced by its string form. -/
mutual
def stripDatetimes : PyVal → PyVal
  | PyVal.null => PyVal.null
  | PyVal.bool b => PyVal.bool b
  | PyVal.num n => PyVal.num n
  | PyVal.str s => PyVal.str s
  | PyVal.datetime s => PyVal.str s
  | PyVal.other => PyVal.other
  | PyVal.arr l => PyVal.arr (stripDatetimesList l)
  | PyVal.obj o => PyVal.obj (stripDatetimesObj o)
def stripDatetimesList : PyList → PyList
  | PyList.nil => PyList.nil
  | PyList.cons v l => PyList.cons (stripDatetimes v) (stripDatetimesList l)
def stripDatetimesObj : PyObj → PyObj
  | PyObj.nil => PyObj.nil
  | PyObj.cons k v o => PyObj.cons k (stripDatetimes v) (stripDatetimesObj o)
end

/- "V is JSON-serializable (given the datetime hook)": no `other` sub-value. -/
mutual
def serializable : PyVal → Bool
  | PyVal.other => false
  | PyVal.arr l => serializableList l
  | PyVal.obj o => serializableObj o
  | _ => true
def serializableList : PyList → Bool
  | PyList.nil => true
  | PyList.cons v l => serializable v && serializableList l
def serializableObj : PyObj → Bool
  | PyObj.nil => true
  | PyObj.cons _ v o => serializable v && serializableObj o
end

/- The filesystem-and-clock environment seen by one get_data call: what each
   primitive would do if invoked.  statMtime is the outcome of
   self._cache_file.stat().st_mtime; readContent the outcome of opening,
   reading and json-decoding the cache file (Except.ok none: the file was
   read but json.loads raises ValueError; Except.ok (some j): decoding
   succeeded with JSON value j); mkdirErr / writeErr an exception raised by
   mkdir(parents=True, exist_ok=True) / store.save_text_to_file, if any.
   now is time.time().  Timestamps and the clock are integral seconds. -/
structure FS where
  fileExists : Bool
  statMtime : Except Err Int
  now : Int
  readContent : Except Err (Option JVal)
  mkdirErr : Option Err
  writeErr : Option Err

/- Side-effect counters for one get_data call: invocations of
   get_live_data, reads of the cache file (get_cached_data entered),
   mkdir calls, and file-write attempts. -/
structure Effects where
  liveCalls : Nat
  cacheReads : Nat
  mkdirCalls : Nat
  fileWrites : Nat
deriving DecidableEq

/- A concrete DataCache subclass: cache_interval, the debug flag given to
   __init__, and the two abstract methods get_validity_from_args and
   get_live_data (which receives positional arguments of type α only, as in
   the source: `self.get_live_data(*args)`). -/
structure DataCacheModel (α : Type) where
  cacheInterval : Int
  debug : Bool
  getValidity : α → Bool
  getLive : α → Except Err PyVal

/- kwargs of a get_data call, as a keyword-to-value association list;
   `kwargs.pop("use_cache", True)`. -/
def useCacheOf (kwargs : List (String × Bool)) : Bool :=
  (kwargs.lookup "use_cache").getD true

/- DataCache.cache_timestamp: None when the file does not exist (or vanishes
   between exists() and stat(): FileNotFoundError); any other OSError from
   stat() is re-raised. -/
def cache_timestamp (fs : FS) : Except Err (Option Int) :=
  if !fs.fileExists then Except.ok none
  else
    match fs.statMtime with
    | Except.ok m => Except.ok (some m)
    | Except.error Err.fileNotFound => Except.ok none
    | Except.error e => Except.error e

/- DataCache._cache_is_valid: fresh iff a timestamp exists and
   0 < time.time() - mtime < cache_interval. -/
def cache_is_valid (interval : Int) (fs : FS) : Except Err Bool :=
  match cache_timestamp fs with
  | Except.error e => Except.error e
  | Except.ok none => Except.ok false
  | Except.ok (some mtime) =>
      Except.ok (decide (0 < fs.now - mtime ∧ fs.now - mtime < interval))

/- DataCache.get_cached_data: read the file (re-raising FileNotFoundError
   and OSError after logging) and json.loads the content (re-raising
   ValueError after logging); on success return the decoded Python value. -/
def get_cached_data (fs : FS) : Except Err PyVal :=
  match fs.readContent with
  | Except.error e => Except.error e
  | Except.ok none => Except.error Err.valueError
  | Except.ok (some j) => Except.ok (jvalToPy j)

/- DataCache._write_to_cache: mkdir(parents=True, exist_ok=True), then
   json.dumps(raw_content, default=datetime_serializer) (TypeError on a
   non-serializable value), then store.save_text_to_file. -/
def write_to_cache (fs : FS) (v : PyVal) : Except Err Unit × Effects :=
  match fs.mkdirErr with
  | some e => (Except.error e, ⟨0, 0, 1, 0⟩)
  | none =>
      match serializeVal v with
      | Except.error _ => (Except.error Err.typeError, ⟨0, 0, 1, 0⟩)
      | Except.ok _ =>
          match fs.writeErr with
          | some e => (Except.error e, ⟨0, 0, 1, 1⟩)
          | none => (Except.ok (), ⟨0, 0, 1, 1⟩)

/- The tail of get_data common to every cache-miss path:
   `live_data = self.get_live_data(*args)` (errors propagate untouched),
   then `try: self._write_to_cache(live_data) except (OSError, TypeError)`
   which re-raises only when self.debug, and finally `return live_data`. -/
def fetchAndStore {α : Type} (m : DataCacheModel α) (fs : FS) (args : α) :
    Except Err PyVal × Effects :=
  match m.getLive args with
  | Except.error e => (Except.error e, ⟨1, 0, 0, 0⟩)
  | Except.ok v =>
      match (write_to_cache fs v).1 with
      | Except.ok _ =>
          (Except.ok v,
            ⟨1, 0, (write_to_cache fs v).2.mkdirCalls, (write_to_cache fs v).2.fileWrites⟩)
      | Except.error e =>
          if caughtWriteErr e then
            if m.debug then
              (Except.error e,
                ⟨1, 0, (write_to_cache fs v).2.mkdirCalls, (write_to_cache fs v).2.fileWrites⟩)
            else
              (Except.ok v,
                ⟨1, 0, (write_to_cache fs v).2.mkdirCalls, (write_to_cache fs v).2.fileWrites⟩)
          else
            (Except.error e,
              ⟨1, 0, (write_to_cache fs v).2.mkdirCalls, (write_to_cache fs v).2.fileWrites⟩)

/- DataCache.get_data.  `use_cache = kwargs.pop("use_cache", True)`; the
   remaining keyword arguments are never used.  When use_cache and the
   validity predicate and _cache_is_valid() all hold (short-circuit `and`:
   later operands are not evaluated once one is false; an exception from
   _cache_is_valid propagates uncaught), try get_cached_data, catching
   (OSError, ValueError): on such an error re-raise when self.debug, else
   fall through to the live fetch. -/
def get_data {α : Type} (m : DataCacheModel α) (fs : FS) (args : α)
    (kwargs : List (String × Bool)) : Except Err PyVal × Effects :=
  if useCacheOf kwargs && m.getValidity args then
    match cache_is_valid m.cacheInterval fs with
    | Except.error e => (Except.error e, ⟨0, 0, 0, 0⟩)
    | Except.ok true =>
        match get_cached_data fs with
        | Except.ok v => (Except.ok v, ⟨0, 1, 0, 0⟩)
        | Except.error e =>
            if caughtReadErr e then
              if m.debug then (Except.error e, ⟨0, 1, 0, 0⟩)
              else
                match fetchAndStore m fs args with
                | (r, eff) => (r, ⟨eff.liveCalls, 1, eff.mkdirCalls, eff.fileWrites⟩)
            else (Except.error e, ⟨0, 1, 0, 0⟩)
    | Except.ok false => fetchAndStore m fs args
  else fetchAndStore m fs args

mutual
theorem roundtrip_val : ∀ (v : PyVal) (j : JVal),
    serializeVal v = Except.ok j → jvalToPy j = stripDatetimes v
  | PyVal.null, j, h => by
      simp only [serializeVal] at h
      injection h with h
      subst h
      rfl
  | PyVal.bool b, j, h => by
      simp only [serializeVal] at h
      injection h with h
      subst h
      rfl
  | PyVal.num n, j, h => by
      simp only [serializeVal] at h
      injection h with h
      subst h
      rfl
  | PyVal.str s, j, h => by
      simp only [serializeVal] at h
      injection h with h
      subst h
      rfl
  | PyVal.datetime s, j, h => by
      simp only [serializeVal, serializeDefault, datetime_serializer] at h
      injection h with h
      subst h
      rfl
  | PyVal.other, j, h => by
      simp only [serializeVal, serializeDefault, datetime_serializer] at h
      exact Except.noConfusion h
  | PyVal.arr l, j, h => by
      simp only [serializeVal] at h
      cases hl : serializeList l with
      | error e => rw [hl] at h; exact Except.noConfusion h
      | ok js =>
          rw [hl] at h
          injection h with h
          subst h
          simp only [jvalToPy, stripDatetimes]
          rw [roundtrip_list l js hl]
  | PyVal.obj o, j, h => by
      simp only [serializeVal] at h
      cases ho : serializeObj o with
      | error e => rw [ho] at h; exact Except.noConfusion h
      | ok jo =>
          rw [ho] at h
          injection h with h
          subst h
          simp only [jvalToPy, stripDatetimes]
          rw [roundtrip_obj o jo ho]
theorem roundtrip_list : ∀ (l : PyList) (js : JList),
    serializeList l = Except.ok js → jlistToPy js = stripDatetimesList l
  | PyList.nil, js, h => by
      simp only [serializeList] at h
      injection h with h
      subst h
      rfl
  | PyList.cons v l, js, h => by
      simp only [serializeList] at h
      cases hv : serializeVal v with
      | error e => rw [hv] at h; exact Except.noConfusion h
      | ok j =>
          rw [hv] at h
          cases hl : serializeList l with
          | error e => rw [hl] at h; exact Except.noConfusion h
          | ok js2 =>
              rw [hl] at h
              injection h with h
              subst h
              simp only [jlistToPy, stripDatetimesList]
              rw [roundtrip_val v j hv, roundtrip_list l js2 hl]
theorem roundtrip_obj : ∀ (o : PyObj) (jo : JObj),
    serializeObj o = Except.ok jo → jobjToPy jo = stripDatetimesObj o
  | PyObj.nil, jo, h => by
      simp only [serializeObj] at h
      injection h with h
      subst h
      rfl
  | PyObj.cons k v o, jo, h => by
      simp only [serializeObj] at h
      cases hv : serializeVal v with
      | error e => rw [hv] at h; exact Except.noConfusion h
      | ok j =>
          rw [hv] at h
          cases ho : serializeObj o with
          | error e => rw [ho] at h; exact Except.noConfusion h
          | ok jo2 =>
              rw [ho] at h
              injection h with h
              subst h
              simp only [jobjToPy, stripDatetimesObj]
              rw [roundtrip_val v j hv, roundtrip_obj o jo2 ho]
end

mutual
theorem serializeVal_error : ∀ (v : PyVal), serializable v = false →
    serializeVal v = Except.error ()
  | PyVal.null, h => by simp only [serializable] at h; exact Bool.noConfusion h
  | PyVal.bool b, h => by simp only [serializable] at h; exact Bool.noConfusion h
  | PyVal.num n, h => by simp only [serializable] at h; exact Bool.noConfusion h
  | PyVal.str s, h => by simp only [serializable] at h; exact Bool.noConfusion h
  | PyVal.datetime s, h => by simp only [serializable] at h; exact Bool.noConfusion h
  | PyVal.other, _ => by
      simp only [serializeVal, serializeDefault, datetime_serializer]
  | PyVal.arr l, h => by
      simp only [serializable] at h
      simp only [serializeVal]
      rw [serializeList_error l h]
  | PyVal.obj o, h => by
      simp only [serializable] at h
      simp only [serializeVal]
      rw [serializeObj_error o h]
theorem serializeList_error : ∀ (l : PyList), serializableList l = false →
    serializeList l = Except.error ()
  | PyList.cons v l, h => by
      simp only [serializableList] at h
      simp only [serializeList]
      cases hv : serializable v with
      | false => rw [serializeVal_error v hv]
      | true =>
          rw [hv, Bool.true_and] at h
          cases hsv : serializeVal v with
          | error e => cases e; rfl
          | ok j => rw [serializeList_error l h]
theorem serializeObj_error : ∀ (o : PyObj), serializableObj o = false →
    serializeObj o = Except.error ()
  | PyObj.cons k v o, h => by
      simp only [serializableObj] at h
      simp only [serializeObj]
      cases hv : serializable v with
      | false => rw [serializeVal_error v hv]
      | true =>
          rw [hv, Bool.true_and] at h
          cases hsv : serializeVal v with
          | error e => cases e; rfl
          | ok j => rw [serializeObj_error o h]
end

theorem serializable_of_ok (v : PyVal) (j : JVal) (h : serializeVal v = Except.ok j) :
    serializable v = true := by
  cases hb : serializable v with
  | true => rfl
  | false =>
      rw [serializeVal_error v hb] at h
      exact Except.noConfusion h

theorem cache_is_valid_stat (interval : Int) (fs : FS) (mt : Int)
    (hex : fs.fileExists = true) (hst : fs.statMtime = Except.ok mt) :
    cache_is_valid interval fs =
      Except.ok (decide (0 < fs.now - mt ∧ fs.now - mt < interval)) := by
  unfold cache_is_valid cache_timestamp
  rw [hex, hst]
  simp

theorem cache_is_valid_absent (interval : Int) (fs : FS)
    (hex : fs.fileExists = false) :
    cache_is_valid interval fs = Except.ok false := by
  unfold cache_is_valid cache_timestamp
  rw [hex]
  simp

theorem fetchAndStore_eff {α : Type} (m : DataCacheModel α) (fs : FS) (args : α) :
    ∃ r k w, fetchAndStore m fs args = (r, ⟨1, 0, k, w⟩) := by
  unfold fetchAndStore
  split
  · exact ⟨_, _, _, rfl⟩
  · split
    · exact ⟨_, _, _, rfl⟩
    · split
      · split
        · exact ⟨_, _, _, rfl⟩
        · exact ⟨_, _, _, rfl⟩
      · exact ⟨_, _, _, rfl⟩

theorem getData_bypass_eq {α : Type} (m : DataCacheModel α) (fs : FS) (args : α)
    (kwargs : List (String × Bool))
    (h : useCacheOf kwargs = false ∨ m.getValidity args = false) :
    get_data m fs args kwargs = fetchAndStore m fs args := by
  unfold get_data
  cases h with
  | inl h => rw [h]; simp
  | inr h => rw [h]; simp

theorem getData_hit_branch {α : Type} (m : DataCacheModel α) (fs : FS) (args : α)
    (kwargs : List (String × Bool))
    (h1 : useCacheOf kwargs = true) (h2 : m.getValidity args = true)
    (h3 : cache_is_valid m.cacheInterval fs = Except.ok true) :
    get_data m fs args kwargs =
      match get_cached_data fs with
      | Except.ok v => (Except.ok v, ⟨0, 1, 0, 0⟩)
      | Except.error e =>
          if caughtReadErr e then
            if m.debug then (Except.error e, ⟨0, 1, 0, 0⟩)
            else
              match fetchAndStore m fs args with
              | (r, eff) => (r, ⟨eff.liveCalls, 1, eff.mkdirCalls, eff.fileWrites⟩)
          else (Except.error e, ⟨0, 1, 0, 0⟩) := by
  unfold get_data
  rw [h1, h2, h3]
  simp

theorem getData_stale_eq {α : Type} (m : DataCacheModel α) (fs : FS) (args : α)
    (kwargs : List (String × Bool))
    (h3 : cache_is_valid m.cacheInterval fs = Except.ok false) :
    get_data m fs args kwargs = fetchAndStore m fs args := by
  unfold get_data
  cases hc : useCacheOf kwargs && m.getValidity args with
  | false => simp
  | true => rw [h3]; simp

theorem write_to_cache_ok (fs : FS) (v : PyVal) (j : JVal)
    (hmk : fs.mkdirErr = none) (hwr : fs.writeErr = none)
    (hs : serializeVal v = Except.ok j) :
    write_to_cache fs v = (Except.ok (), ⟨0, 0, 1, 1⟩) := by
  unfold write_to_cache
  rw [hmk, hs, hwr]

theorem write_to_cache_err_caught (fs : FS) (v : PyVal) (e : Err) (eff : Effects)
    (hw : write_to_cache fs v = (Except.error e, eff))
    (hmk : ∀ e2, fs.mkdirErr = some e2 → caughtWriteErr e2 = true)
    (hwr : ∀ e2, fs.writeErr = some e2 → caughtWriteErr e2 = true) :
    caughtWriteErr e = true := by
  unfold write_to_cache at hw
  cases hm : fs.mkdirErr with
  | some e2 =>
      rw [hm] at hw
      injection hw with hw1 hw2
      injection hw1 with hw1
      subst hw1
      exact hmk e2 hm
  | none =>
      rw [hm] at hw
      cases hs : serializeVal v with
      | error u =>
          rw [hs] at hw
          injection hw with hw1 hw2
          injection hw1 with hw1
          subst hw1
          rfl
      | ok j =>
          rw [hs] at hw
          cases hwe : fs.writeErr with
          | some e2 =>
              rw [hwe] at hw
              injection hw with hw1 hw2
              injection hw1 with hw1
              subst hw1
              exact hwr e2 hwe
          | none =>
              rw [hwe] at hw
              injection hw with hw1 hw2
              exact Except.noConfusion hw1

theorem fetchAndStore_live_err {α : Type} (m : DataCacheModel α) (fs : FS) (args : α)
    (e : Err) (hl : m.getLive args = Except.error e) :
    fetchAndStore m fs args = (Except.error e, ⟨1, 0, 0, 0⟩) := by
  unfold fetchAndStore
  rw [hl]

theorem fetchAndStore_write_ok {α : Type} (m : DataCacheModel α) (fs : FS) (args : α)
    (v : PyVal) (eff : Effects)
    (hl : m.getLive args = Except.ok v)
    (hw : write_to_cache fs v = (Except.ok (), eff)) :
    fetchAndStore m fs args = (Except.ok v, ⟨1, 0, eff.mkdirCalls, eff.fileWrites⟩) := by
  unfold fetchAndStore
  rw [hl]
  simp only []
  rw [hw]

theorem fetchAndStore_write_err {α : Type} (m : DataCacheModel α) (fs : FS) (args : α)
    (v : PyVal) (e : Err) (eff : Effects)
    (hl : m.getLive args = Except.ok v)
    (hw : write_to_cache fs v = (Except.error e, eff))
    (hc : caughtWriteErr e = true) :
    fetchAndStore m fs args =
      (if m.debug then Except.error e else Except.ok v,
        ⟨1, 0, eff.mkdirCalls, eff.fileWrites⟩) := by
  unfold fetchAndStore
  rw [hl]
  simp only []
  rw [hw]
  simp only [hc]
  cases hd : m.debug with
  | true => simp
  | false => simp

theorem fetchAndStore_ok_lenient {α : Type} (m : DataCacheModel α) (fs : FS) (args : α)
    (v : PyVal) (hd : m.debug = false) (hl : m.getLive args = Except.ok v)
    (hmk : ∀ e2, fs.mkdirErr = some e2 → caughtWriteErr e2 = true)
    (hwr : ∀ e2, fs.writeErr = some e2 → caughtWriteErr e2 = true) :
    (fetchAndStore m fs args).1 = Except.ok v := by
  cases hw : write_to_cache fs v with
  | mk w eff =>
      cases w with
      | ok u =>
          cases u
          rw [fetchAndStore_write_ok m fs args v eff hl hw]
      | error e =>
          have hc := write_to_cache_err_caught fs v e eff hw hmk hwr
          rw [fetchAndStore_write_err m fs args v e eff hl hw hc, hd]
          simp

theorem getData_fetch_path {α : Type} (m : DataCacheModel α) (fs : FS) (args : α)
    (kwargs : List (String × Bool))
    (h : (get_data m fs args kwargs).2.liveCalls = 1) :
    (get_data m fs args kwargs).1 = (fetchAndStore m fs args).1 ∧
    (get_data m fs args kwargs).2.mkdirCalls = (fetchAndStore m fs args).2.mkdirCalls ∧
    (get_data m fs args kwargs).2.fileWrites = (fetchAndStore m fs args).2.fileWrites := by
  rcases hgd : get_data m fs args kwargs with ⟨res, eff⟩
  rw [hgd] at h
  simp only at h
  unfold get_data at hgd
  split at hgd
  · split at hgd
    · injection hgd with h1 h2
      subst h2
      simp at h
    · split at hgd
      · injection hgd with h1 h2
        subst h2
        simp at h
      · split at hgd
        · split at hgd
          · injection hgd with h1 h2
            subst h2
            simp at h
          · rcases hfw : fetchAndStore m fs args with ⟨r, e2⟩
            rw [hfw] at hgd
            simp only at hgd
            injection hgd with h1 h2
            subst h1
            subst h2
            exact ⟨rfl, rfl, rfl⟩
        · injection hgd with h1 h2
          subst h2
          simp at h
    · rw [hgd]
      exact ⟨rfl, rfl, rfl⟩
  · rw [hgd]
    exact ⟨rfl, rfl, rfl⟩

theorem getData_hit_cacheReads {α : Type} (m : DataCacheModel α) (fs : FS) (args : α)
    (kwargs : List (String × Bool))
    (h1 : useCacheOf kwargs = true) (h2 : m.getValidity args = true)
    (h3 : cache_is_valid m.cacheInterval fs = Except.ok true) :
    (get_data m fs args kwargs).2.cacheReads = 1 := by
  rw [getData_hit_branch m fs args kwargs h1 h2 h3]
  split
  · rfl
  · split
    · split
      · rfl
      · rcases hfw : fetchAndStore m fs args with ⟨r, e2⟩
        rfl
    · rfl

theorem getData_hit_value {α : Type} (m : DataCacheModel α) (fs : FS) (args : α)
    (kwargs : List (String × Bool)) (j : JVal)
    (h1 : useCacheOf kwargs = true) (h2 : m.getValidity args = true)
    (h3 : cache_is_valid m.cacheInterval fs = Except.ok true)
    (h4 : fs.readContent = Except.ok (some j)) :
    get_data m fs args kwargs = (Except.ok (jvalToPy j), ⟨0, 1, 0, 0⟩) := by
  rw [getData_hit_branch m fs args kwargs h1 h2 h3]
  have hc : get_cached_data fs = Except.ok (jvalToPy j) := by
    unfold get_cached_data
    rw [h4]
  rw [hc]

theorem getData_read_err_debug {α : Type} (m : DataCacheModel α) (fs : FS) (args : α)
    (kwargs : List (String × Bool)) (e : Err)
    (h1 : useCacheOf kwargs = true) (h2 : m.getValidity args = true)
    (h3 : cache_is_valid m.cacheInterval fs = Except.ok true)
    (hre : get_cached_data fs = Except.error e)
    (hce : caughtReadErr e = true) (hd : m.debug = true) :
    get_data m fs args kwargs = (Except.error e, ⟨0, 1, 0, 0⟩) := by
  rw [getData_hit_branch m fs args kwargs h1 h2 h3, hre]
  simp only [hce, hd, if_true]

theorem getData_read_err_lenient {α : Type} (m : DataCacheModel α) (fs : FS) (args : α)
    (kwargs : List (String × Bool)) (e : Err)
    (h1 : useCacheOf kwargs = true) (h2 : m.getValidity args = true)
    (h3 : cache_is_valid m.cacheInterval fs = Except.ok true)
    (hre : get_cached_data fs = Except.error e)
    (hce : caughtReadErr e = true) (hd : m.debug = false) :
    (get_data m fs args kwargs).1 = (fetchAndStore m fs args).1 ∧
    (get_data m fs args kwargs).2.liveCalls = (fetchAndStore m fs args).2.liveCalls ∧
    (get_data m fs args kwargs).2.cacheReads = 1 := by
  rw [getData_hit_branch m fs args kwargs h1 h2 h3, hre]
  simp only [hce, hd, if_true, if_false, Bool.false_eq_true]
  exact ⟨trivial, trivial, trivial⟩

/- Concrete instances used to instantiate the theorems below: a cache with a
   600 s freshness window whose live fetch yields the number 42 (Mhit), the
   same cache in debug mode (Mdbg), and one whose live fetch raises (Mfail);
   filesystem snapshots for a fresh readable file (FShit), a fresh file whose
   content is not valid JSON (FSbadjson), a stat() call failing with a
   non-FileNotFoundError OSError (FSstatfail), an absent file (FSmiss), and
   an absent file with a failing mkdir (FSwritefail). -/
def Mhit : DataCacheModel Nat :=
  ⟨600, false, fun _ => true, fun _ => Except.ok (PyVal.num 42)⟩

def Mdbg : DataCacheModel Nat :=
  ⟨600, true, fun _ => true, fun _ => Except.ok (PyVal.num 42)⟩

def Mfail : DataCacheModel Nat :=
  ⟨600, false, fun _ => true, fun _ => Except.error (Err.exc 7)⟩

def FShit : FS := ⟨true, Except.ok 90, 100, Except.ok (some (JVal.num 7)), none, none⟩

def FSbadjson : FS := ⟨true, Except.ok 90, 100, Except.ok none, none, none⟩

def FSstatfail : FS :=
  ⟨true, Except.error (Err.osError 13), 100, Except.ok (some JVal.null), none, none⟩

def FSmiss : FS := ⟨false, Except.ok 0, 100, Except.error Err.fileNotFound, none, none⟩

def FSwritefail : FS :=
  ⟨false, Except.ok 0, 100, Except.error Err.fileNotFound, some (Err.osError 13), none⟩

example : get_data Mhit FShit 0 [] = (Except.ok (PyVal.num 7), ⟨0, 1, 0, 0⟩) := rfl
example : get_data Mhit FShit 0 [("use_cache", false)] = (Except.ok (PyVal.num 42), ⟨1, 0, 1, 1⟩) := rfl
example : get_data Mhit FSstatfail 0 [] = (Except.error (Err.osError 13), ⟨0, 0, 0, 0⟩) := rfl
example : get_data Mhit FSbadjson 0 [] = (Except.ok (PyVal.num 42), ⟨1, 1, 1, 1⟩) := rfl
example : get_data Mdbg FSbadjson 0 [] = (Except.error Err.valueError, ⟨0, 1, 0, 0⟩) := rfl
example : get_data Mhit FSmiss 0 [] = (Except.ok (PyVal.num 42), ⟨1, 0, 1, 1⟩) := rfl
example : get_data Mhit FSwritefail 0 [] = (Except.ok (PyVal.num 42), ⟨1, 0, 1, 0⟩) := rfl
example : get_data Mdbg FSwritefail 0 [] = (Except.error (Err.osError 13), ⟨1, 0, 1, 0⟩) := rfl
example : get_data Mfail FSmiss 0 [] = (Except.error (Err.exc 7), ⟨1, 0, 0, 0⟩) := rfl

theorem cache_is_valid_error (interval : Int) (fs : FS) (e : Err)
    (h : cache_is_valid interval fs = Except.error e) :
    fs.fileExists = true ∧ fs.statMtime = Except.error e ∧ e ≠ Err.fileNotFound := by
  unfold cache_is_valid cache_timestamp at h
  cases hex : fs.fileExists with
  | false => rw [hex] at h; simp at h
  | true =>
      rw [hex] at h
      simp only [Bool.not_true, Bool.false_eq_true, if_false] at h
      cases hst : fs.statMtime with
      | ok mtv => rw [hst] at h; simp at h
      | error e2 =>
          rw [hst] at h
          cases e2 with
          | fileNotFound => simp at h
          | osError n =>
              injection h with h
              subst h
              exact ⟨rfl, rfl, fun hc => Err.noConfusion hc⟩
          | valueError =>
              injection h with h
              subst h
              exact ⟨rfl, rfl, fun hc => Err.noConfusion hc⟩
          | typeError =>
              injection h with h
              subst h
              exact ⟨rfl, rfl, fun hc => Err.noConfusion hc⟩
          | exc n =>
              injection h with h
              subst h
              exact ⟨rfl, rfl, fun hc => Err.noConfusion hc⟩

theorem get_cached_data_err_caught (fs : FS) (e : Err)
    (h : get_cached_data fs = Except.error e)
    (hread : ∀ e2, fs.readContent = Except.error e2 → caughtReadErr e2 = true) :
    caughtReadErr e = true := by
  unfold get_cached_data at h
  cases hr : fs.readContent with
  | error e2 =>
      rw [hr] at h
      injection h with h
      subst h
      exact hread e2 hr
  | ok o =>
      cases o with
      | none =>
          rw [hr] at h
          injection h with h
          subst h
          rfl
      | some j => rw [hr] at h; exact Except.noConfusion h

theorem fetchAndStore_err_lenient {α : Type} (m : DataCacheModel α) (fs : FS) (args : α)
    (e : Err) (hd : m.debug = false)
    (hmk : ∀ e2, fs.mkdirErr = some e2 → caughtWriteErr e2 = true)
    (hwr : ∀ e2, fs.writeErr = some e2 → caughtWriteErr e2 = true)
    (h : (fetchAndStore m fs args).1 = Except.error e) :
    m.getLive args = Except.error e := by
  cases hl : m.getLive args with
  | error e2 =>
      rw [fetchAndStore_live_err m fs args e2 hl] at h
      simp only at h
      injection h with h
      subst h
      rfl
  | ok v =>
      have hok := fetchAndStore_ok_lenient m fs args v hd hl hmk hwr
      rw [hok] at h
      exact Except.noConfusion h

theorem write_to_cache_eff (fs : FS) (v : PyVal) :
    ∃ r w, write_to_cache fs v = (r, ⟨0, 0, 1, w⟩) ∧ w ≤ 1 := by
  unfold write_to_cache
  cases hm : fs.mkdirErr with
  | some e => exact ⟨_, 0, rfl, Nat.zero_le 1⟩
  | none =>
      cases hs : serializeVal v with
      | error u => exact ⟨_, 0, rfl, Nat.zero_le 1⟩
      | ok j =>
          cases hw : fs.writeErr with
          | some e => exact ⟨_, 1, rfl, Nat.le_refl 1⟩
          | none => exact ⟨_, 1, rfl, Nat.le_refl 1⟩

theorem fetchAndStore_write_err_any {α : Type} (m : DataCacheModel α) (fs : FS)
    (args : α) (v : PyVal) (e : Err) (eff : Effects)
    (hl : m.getLive args = Except.ok v)
    (hw : write_to_cache fs v = (Except.error e, eff)) :
    (fetchAndStore m fs args).2 = ⟨1, 0, eff.mkdirCalls, eff.fileWrites⟩ := by
  unfold fetchAndStore
  rw [hl]
  simp only []
  rw [hw]
  simp only []
  split
  · split
    · rfl
    · rfl
  · rfl

theorem fetchAndStore_bounds {α : Type} (m : DataCacheModel α) (fs : FS) (args : α) :
    (fetchAndStore m fs args).2.mkdirCalls ≤ 1 ∧
    (fetchAndStore m fs args).2.fileWrites ≤ 1 := by
  cases hl : m.getLive args with
  | error e =>
      rw [fetchAndStore_live_err m fs args e hl]
      exact ⟨Nat.zero_le 1, Nat.zero_le 1⟩
  | ok v =>
      obtain ⟨r, w, hw, hwle⟩ := write_to_cache_eff fs v
      cases r with
      | ok u =>
          cases u
          rw [fetchAndStore_write_ok m fs args v _ hl hw]
          exact ⟨Nat.le_refl 1, hwle⟩
      | error e =>
          rw [fetchAndStore_write_err_any m fs args v e _ hl hw]
          exact ⟨Nat.le_refl 1, hwle⟩

theorem getData_effects_cases {α : Type} (m : DataCacheModel α) (fs : FS) (args : α)
    (kwargs : List (String × Bool)) :
    (get_data m fs args kwargs).2 = ⟨0, 0, 0, 0⟩ ∨
    (get_data m fs args kwargs).2 = ⟨0, 1, 0, 0⟩ ∨
    (∃ c, (get_data m fs args kwargs).2 =
      ⟨1, c, (fetchAndStore m fs args).2.mkdirCalls,
        (fetchAndStore m fs args).2.fileWrites⟩) := by
  rcases hgd : get_data m fs args kwargs with ⟨res, eff⟩
  unfold get_data at hgd
  split at hgd
  · split at hgd
    · injection hgd with h1 h2
      subst h2
      left
      rfl
    · split at hgd
      · injection hgd with h1 h2
        subst h2
        right
        left
        rfl
      · split at hgd
        · split at hgd
          · injection hgd with h1 h2
            subst h2
            right
            left
            rfl
          · rcases hfw : fetchAndStore m fs args with ⟨r, e2⟩
            rw [hfw] at hgd
            simp only at hgd
            injection hgd with h1 h2
            subst h2
            right
            right
            obtain ⟨r0, k0, w0, hfe⟩ := fetchAndStore_eff m fs args
            rw [hfw] at hfe
            injection hfe with hf1 hf2
            subst hf2
            exact ⟨1, rfl⟩
        · injection hgd with h1 h2
          subst h2
          right
          left
          rfl
    · right
      right
      obtain ⟨r0, k0, w0, hfe⟩ := fetchAndStore_eff m fs args
      rw [hgd] at hfe
      injection hfe with hf1 hf2
      subst hf2
      rw [hgd]
      exact ⟨0, rfl⟩
  · right
    right
    obtain ⟨r0, k0, w0, hfe⟩ := fetchAndStore_eff m fs args
    rw [hgd] at hfe
    injection hfe with hf1 hf2
    subst hf2
    rw [hgd]
    exact ⟨0, rfl⟩

/-- C1: with use_cache true and the validity predicate true, the cached-data
branch of get_data (an invocation of get_cached_data) is taken if and only
if the cache file exists and 0 < now - mtime < cache_interval; a missing
file, an age of at most 0 and an age of at least cache_interval each lead
to a live fetch instead. -/
theorem getData_freshness {α : Type} (m : DataCacheModel α) (fs : FS) (args : α)
    (kwargs : List (String × Bool)) (mt : Int)
    (h1 : useCacheOf kwargs = true) (h2 : m.getValidity args = true)
    (hst : fs.statMtime = Except.ok mt) :
    ((get_data m fs args kwargs).2.cacheReads = 1 ↔
      (fs.fileExists = true ∧ 0 < fs.now - mt ∧ fs.now - mt < m.cacheInterval)) ∧
    (¬(fs.fileExists = true ∧ 0 < fs.now - mt ∧ fs.now - mt < m.cacheInterval) →
      (get_data m fs args kwargs).2.liveCalls = 1) := by
  by_cases hcond : fs.fileExists = true ∧ 0 < fs.now - mt ∧ fs.now - mt < m.cacheInterval
  · have h3 : cache_is_valid m.cacheInterval fs = Except.ok true := by
      rw [cache_is_valid_stat m.cacheInterval fs mt hcond.1 hst]
      congr 1
      exact decide_eq_true hcond.2
    constructor
    · constructor
      · intro _
        exact hcond
      · intro _
        exact getData_hit_cacheReads m fs args kwargs h1 h2 h3
    · intro hcon
      exact absurd hcond hcon
  · have h3 : cache_is_valid m.cacheInterval fs = Except.ok false := by
      cases hex : fs.fileExists with
      | false => exact cache_is_valid_absent m.cacheInterval fs hex
      | true =>
          rw [cache_is_valid_stat m.cacheInterval fs mt hex hst]
          congr 1
          apply decide_eq_false
          intro hfr
          exact hcond ⟨hex, hfr⟩
    have he := getData_stale_eq m fs args kwargs h3
    obtain ⟨r, k, w, hfw⟩ := fetchAndStore_eff m fs args
    rw [he, hfw]
    constructor
    · constructor
      · intro h0
        simp at h0
      · intro hc
        exact absurd hc hcond
    · intro _
      rfl

/-- C1 witness: the theorem applied to the concrete fresh-cache scenario
(Mhit, FShit): file present, mtime 90, now 100, window 600. -/
theorem getData_freshness_witness :
    ((get_data Mhit FShit 0 []).2.cacheReads = 1 ↔
      (FShit.fileExists = true ∧ 0 < FShit.now - 90 ∧ FShit.now - 90 < Mhit.cacheInterval)) ∧
    (¬(FShit.fileExists = true ∧ 0 < FShit.now - 90 ∧ FShit.now - 90 < Mhit.cacheInterval) →
      (get_data Mhit FShit 0 []).2.liveCalls = 1) :=
  getData_freshness Mhit FShit 0 [] 90 rfl rfl rfl

/-- C2: when the cache-hit conditions hold (use_cache true, validity true,
file present, 0 < now - mtime < cache_interval) and reading plus
JSON-decoding the cache file succeeds, get_data returns the decoded value
and get_live_data is never invoked (liveCalls = 0 in the effect record). -/
theorem getData_hit_no_fetch {α : Type} (m : DataCacheModel α) (fs : FS) (args : α)
    (kwargs : List (String × Bool)) (mt : Int) (j : JVal)
    (h1 : useCacheOf kwargs = true) (h2 : m.getValidity args = true)
    (hex : fs.fileExists = true) (hst : fs.statMtime = Except.ok mt)
    (hage1 : 0 < fs.now - mt) (hage2 : fs.now - mt < m.cacheInterval)
    (hread : fs.readContent = Except.ok (some j)) :
    get_data m fs args kwargs = (Except.ok (jvalToPy j), ⟨0, 1, 0, 0⟩) := by
  have h3 : cache_is_valid m.cacheInterval fs = Except.ok true := by
    rw [cache_is_valid_stat m.cacheInterval fs mt hex hst]
    congr 1
    exact decide_eq_true ⟨hage1, hage2⟩
  exact getData_hit_value m fs args kwargs j h1 h2 h3 hread

/-- C2 witness: the theorem applied to the concrete fresh readable cache. -/
theorem getData_hit_no_fetch_witness :
    get_data Mhit FShit 0 [] = (Except.ok (jvalToPy (JVal.num 7)), ⟨0, 1, 0, 0⟩) :=
  getData_hit_no_fetch Mhit FShit 0 [] 90 (JVal.num 7) rfl rfl rfl rfl
    (by decide) (by decide) rfl

/-- C3 counterexample: with debug (strict mode) off and a live fetch that
would succeed, a non-FileNotFoundError OSError raised by stat() while
reading the cache file's timestamp escapes get_data to the caller instead
of being absorbed into a live fetch — refuting the claim that in lenient
mode only live-fetch errors escape and that all filesystem errors during
the cache check are absorbed. -/
theorem getData_stat_error_escapes :
    Mhit.debug = false ∧
    Mhit.getLive 0 = Except.ok (PyVal.num 42) ∧
    get_data Mhit FSstatfail 0 [] = (Except.error (Err.osError 13), ⟨0, 0, 0, 0⟩) :=
  ⟨rfl, rfl, rfl⟩

/-- C3 amended: in lenient (non-strict) mode, the only errors that escape
get_data are (a) errors raised by get_live_data and (b) an OSError other
than FileNotFoundError raised by stat() while reading the cache file's
last-modified timestamp (the file existing); every other filesystem or
decode error around reading and writing the cache is absorbed. -/
theorem getData_lenient_error_sources {α : Type} (m : DataCacheModel α) (fs : FS)
    (args : α) (kwargs : List (String × Bool)) (e : Err)
    (hd : m.debug = false)
    (hread : ∀ e2, fs.readContent = Except.error e2 → caughtReadErr e2 = true)
    (hmk : ∀ e2, fs.mkdirErr = some e2 → caughtWriteErr e2 = true)
    (hwr : ∀ e2, fs.writeErr = some e2 → caughtWriteErr e2 = true)
    (herr : (get_data m fs args kwargs).1 = Except.error e) :
    m.getLive args = Except.error e ∨
      (fs.fileExists = true ∧ fs.statMtime = Except.error e ∧ e ≠ Err.fileNotFound) := by
  rcases hgd : get_data m fs args kwargs with ⟨res, eff⟩
  rw [hgd] at herr
  simp only at herr
  subst herr
  unfold get_data at hgd
  split at hgd
  · split at hgd
    · rename_i e0 heq
      injection hgd with hg1 hg2
      injection hg1 with hg1
      subst hg1
      right
      exact cache_is_valid_error m.cacheInterval fs e0 heq
    · split at hgd
      · injection hgd with hg1 hg2
        exact Except.noConfusion hg1
      · rename_i e0 heqr
        split at hgd
        · split at hgd
          · rename_i hdt
            rw [hd] at hdt
            exact Bool.noConfusion hdt
          · rcases hfw : fetchAndStore m fs args with ⟨r, e2⟩
            rw [hfw] at hgd
            simp only at hgd
            injection hgd with hg1 hg2
            left
            apply fetchAndStore_err_lenient m fs args e hd hmk hwr
            rw [hfw]
            simp only
            exact hg1
        · rename_i hcf
          have hca := get_cached_data_err_caught fs e0 heqr hread
          exact absurd hca hcf
    · left
      apply fetchAndStore_err_lenient m fs args e hd hmk hwr
      rw [hgd]
  · left
    apply fetchAndStore_err_lenient m fs args e hd hmk hwr
    rw [hgd]

/-- C3 amended witness: a live-fetch failure on a missing cache file in
lenient mode escapes, and the theorem attributes it to get_live_data. -/
theorem getData_lenient_error_sources_witness :
    (get_data Mfail FSmiss 0 []).1 = Except.error (Err.exc 7) ∧
    (Mfail.getLive 0 = Except.error (Err.exc 7) ∨
      (FSmiss.fileExists = true ∧ FSmiss.statMtime = Except.error (Err.exc 7) ∧
        Err.exc 7 ≠ Err.fileNotFound)) :=
  ⟨rfl,
    getData_lenient_error_sources Mfail FSmiss 0 [] (Err.exc 7) rfl
      (fun e2 h => by injection h with h2; subst h2; rfl)
      (fun e2 h => Option.noConfusion h)
      (fun e2 h => Option.noConfusion h)
      rfl⟩

/-- C4: when the cache-hit conditions hold but reading the cache file fails
(OSError) or json-decoding it fails (ValueError), get_data re-raises that
error exactly when debug is set; otherwise it falls through to a live fetch
and, when the live fetch succeeds, returns the freshly fetched value
without raising (write failures being of OSError class). -/
theorem getData_read_error {α : Type} (m : DataCacheModel α) (fs : FS) (args : α)
    (kwargs : List (String × Bool)) (mt : Int) (e : Err)
    (h1 : useCacheOf kwargs = true) (h2 : m.getValidity args = true)
    (hex : fs.fileExists = true) (hst : fs.statMtime = Except.ok mt)
    (hage1 : 0 < fs.now - mt) (hage2 : fs.now - mt < m.cacheInterval)
    (hre : get_cached_data fs = Except.error e)
    (hce : caughtReadErr e = true)
    (hmk : ∀ e2, fs.mkdirErr = some e2 → caughtWriteErr e2 = true)
    (hwr : ∀ e2, fs.writeErr = some e2 → caughtWriteErr e2 = true) :
    (m.debug = true → get_data m fs args kwargs = (Except.error e, ⟨0, 1, 0, 0⟩)) ∧
    (m.debug = false →
      (get_data m fs args kwargs).2.liveCalls = 1 ∧
      ∀ v, m.getLive args = Except.ok v →
        (get_data m fs args kwargs).1 = Except.ok v) := by
  have h3 : cache_is_valid m.cacheInterval fs = Except.ok true := by
    rw [cache_is_valid_stat m.cacheInterval fs mt hex hst]
    congr 1
    exact decide_eq_true ⟨hage1, hage2⟩
  constructor
  · intro hd
    exact getData_read_err_debug m fs args kwargs e h1 h2 h3 hre hce hd
  · intro hd
    obtain ⟨hq1, hq2, hq3⟩ := getData_read_err_lenient m fs args kwargs e h1 h2 h3 hre hce hd
    constructor
    · rw [hq2]
      obtain ⟨r, k, w, hfw⟩ := fetchAndStore_eff m fs args
      rw [hfw]
    · intro v hlv
      rw [hq1]
      exact fetchAndStore_ok_lenient m fs args v hd hlv hmk hwr

/-- C4 witness: the theorem applied to a fresh cache file whose content is
not valid JSON, with debug off. -/
theorem getData_read_error_witness :
    (Mhit.debug = true →
      get_data Mhit FSbadjson 0 [] = (Except.error Err.valueError, ⟨0, 1, 0, 0⟩)) ∧
    (Mhit.debug = false →
      (get_data Mhit FSbadjson 0 []).2.liveCalls = 1 ∧
      ∀ v, Mhit.getLive 0 = Except.ok v →
        (get_data Mhit FSbadjson 0 []).1 = Except.ok v) :=
  getData_read_error Mhit FSbadjson 0 [] 90 Err.valueError rfl rfl rfl rfl
    (by decide) (by decide) rfl rfl
    (fun e2 h => Option.noConfusion h) (fun e2 h => Option.noConfusion h)

/-- C5: with use_cache false, or with the validity predicate false, the
cache file is never read and the live fetch is always performed; when the
fetch succeeds and encoding, directory creation and the file write all
succeed, the result is persisted (exactly one file write) and returned. -/
theorem getData_bypass {α : Type} (m : DataCacheModel α) (fs : FS) (args : α)
    (kwargs : List (String × Bool))
    (h : useCacheOf kwargs = false ∨ m.getValidity args = false) :
    (get_data m fs args kwargs).2.cacheReads = 0 ∧
    (get_data m fs args kwargs).2.liveCalls = 1 ∧
    (∀ v j, m.getLive args = Except.ok v → serializeVal v = Except.ok j →
      fs.mkdirErr = none → fs.writeErr = none →
      (get_data m fs args kwargs).1 = Except.ok v ∧
      (get_data m fs args kwargs).2.fileWrites = 1) := by
  have he := getData_bypass_eq m fs args kwargs h
  rw [he]
  obtain ⟨r, k, w, hfw⟩ := fetchAndStore_eff m fs args
  refine ⟨by rw [hfw], by rw [hfw], ?_⟩
  intro v j hlv hs hm hw
  have hwc := write_to_cache_ok fs v j hm hw hs
  rw [fetchAndStore_write_ok m fs args v ⟨0, 0, 1, 1⟩ hlv hwc]
  exact ⟨rfl, rfl⟩

/-- C5 witness: the theorem applied to a fresh, valid cache file with the
use_cache keyword argument set to false: the live value is fetched, written
and returned even though the cached entry was fresh. -/
theorem getData_bypass_witness :
    (get_data Mhit FShit 0 [("use_cache", false)]).2.cacheReads = 0 ∧
    (get_data Mhit FShit 0 [("use_cache", false)]).2.liveCalls = 1 ∧
    (∀ v j, Mhit.getLive 0 = Except.ok v → serializeVal v = Except.ok j →
      FShit.mkdirErr = none → FShit.writeErr = none →
      (get_data Mhit FShit 0 [("use_cache", false)]).1 = Except.ok v ∧
      (get_data Mhit FShit 0 [("use_cache", false)]).2.fileWrites = 1) :=
  getData_bypass Mhit FShit 0 [("use_cache", false)] (Or.inl rfl)

/-- C6: when get_data reaches the live fetch, the fetch succeeds, and
persisting the value fails with an error of the caught classes (OSError
from mkdir or the file write, TypeError from encoding), get_data re-raises
that error exactly when debug is set; with debug off the error is swallowed
and the freshly fetched value is returned. -/
theorem getData_write_error {α : Type} (m : DataCacheModel α) (fs : FS) (args : α)
    (kwargs : List (String × Bool)) (v : PyVal) (e : Err)
    (hlive : (get_data m fs args kwargs).2.liveCalls = 1)
    (hlv : m.getLive args = Except.ok v)
    (hw : (write_to_cache fs v).1 = Except.error e)
    (hce : caughtWriteErr e = true) :
    (m.debug = true → (get_data m fs args kwargs).1 = Except.error e) ∧
    (m.debug = false → (get_data m fs args kwargs).1 = Except.ok v) := by
  obtain ⟨heq, _, _⟩ := getData_fetch_path m fs args kwargs hlive
  rcases hww : write_to_cache fs v with ⟨w1, eff⟩
  rw [hww] at hw
  simp only at hw
  subst hw
  have hfs := fetchAndStore_write_err m fs args v e eff hlv hww hce
  constructor
  · intro hd
    rw [heq, hfs]
    simp [hd]
  · intro hd
    rw [heq, hfs]
    simp [hd]

/-- C6 witness: the theorem applied to a cache miss whose mkdir fails with
an OSError, with debug off: the live value is still returned. -/
theorem getData_write_error_witness :
    (Mhit.debug = true →
      (get_data Mhit FSwritefail 0 []).1 = Except.error (Err.osError 13)) ∧
    (Mhit.debug = false →
      (get_data Mhit FSwritefail 0 []).1 = Except.ok (PyVal.num 42)) :=
  getData_write_error Mhit FSwritefail 0 [] (PyVal.num 42) (Err.osError 13)
    rfl rfl rfl rfl

/-- C7: on every call that reaches the live fetch, an error raised by
get_live_data propagates unchanged to the caller — with no debug-mode
hypothesis, i.e. in lenient and strict mode alike — and in that case no
cache write and no directory creation is attempted. -/
theorem getData_live_error {α : Type} (m : DataCacheModel α) (fs : FS) (args : α)
    (kwargs : List (String × Bool)) (e : Err)
    (hlive : (get_data m fs args kwargs).2.liveCalls = 1)
    (hlv : m.getLive args = Except.error e) :
    (get_data m fs args kwargs).1 = Except.error e ∧
    (get_data m fs args kwargs).2.mkdirCalls = 0 ∧
    (get_data m fs args kwargs).2.fileWrites = 0 := by
  obtain ⟨he1, he2, he3⟩ := getData_fetch_path m fs args kwargs hlive
  have hfs := fetchAndStore_live_err m fs args e hlv
  refine ⟨?_, ?_, ?_⟩
  · rw [he1, hfs]
  · rw [he2, hfs]
  · rw [he3, hfs]

/-- C7 witness: the theorem applied to a failing live fetch on a missing
cache file. -/
theorem getData_live_error_witness :
    (get_data Mfail FSmiss 0 []).1 = Except.error (Err.exc 7) ∧
    (get_data Mfail FSmiss 0 []).2.mkdirCalls = 0 ∧
    (get_data Mfail FSmiss 0 []).2.fileWrites = 0 :=
  getData_live_error Mfail FSmiss 0 [] (Err.exc 7) rfl rfl

/- Concrete values for the round-trip witness: a list holding a datetime and
   a number, its JSON image, a filesystem snapshot whose cache file holds
   that image, and a list holding a non-serializable object. -/
def Vdt : PyVal :=
  PyVal.arr (PyList.cons (PyVal.datetime "2024-01-01 00:00:00")
    (PyList.cons (PyVal.num 3) PyList.nil))

def Jdt : JVal :=
  JVal.arr (JList.cons (JVal.str "2024-01-01 00:00:00")
    (JList.cons (JVal.num 3) JList.nil))

def Vbad : PyVal := PyVal.arr (PyList.cons PyVal.other PyList.nil)

def FSround : FS := ⟨true, Except.ok 90, 100, Except.ok (some Jdt), none, none⟩

example : serializeVal Vdt = Except.ok Jdt := rfl
example : serializeVal Vbad = Except.error () := rfl
example : stripDatetimes Vdt =
  PyVal.arr (PyList.cons (PyVal.str "2024-01-01 00:00:00")
    (PyList.cons (PyVal.num 3) PyList.nil)) := rfl

/-- C8: writing a value V with _write_to_cache persists its JSON encoding
(json.dumps with datetime_serializer); reading that encoding back with
get_cached_data yields a value deeply equal to V except that every
datetime-typed sub-value is replaced by its string form; and a value with a
sub-value that is neither JSON-serializable nor a datetime makes the
encoding fail with a TypeError. -/
theorem writeRead_roundtrip (v : PyVal) (j : JVal) :
    (serializeVal v = Except.ok j →
      serializable v = true ∧
      ∀ fs : FS, fs.readContent = Except.ok (some j) →
        get_cached_data fs = Except.ok (stripDatetimes v)) ∧
    (serializable v = false → serializeVal v = Except.error ()) := by
  constructor
  · intro h
    refine ⟨serializable_of_ok v j h, ?_⟩
    intro fs hr
    unfold get_cached_data
    rw [hr]
    simp only []
    rw [roundtrip_val v j h]
  · exact serializeVal_error v

/-- C8 witness: the round trip of a concrete list holding a datetime and a
number, plus the hard encoding error for a non-serializable sub-value. -/
theorem writeRead_roundtrip_witness :
    get_cached_data FSround = Except.ok (stripDatetimes Vdt) ∧
    serializeVal Vbad = Except.error () :=
  ⟨((writeRead_roundtrip Vdt Jdt).1 rfl).2 FSround rfl,
    (writeRead_roundtrip Vbad Jdt).2 rfl⟩

/-- C9: a get_data call that never invokes the live fetch (a cache hit, or
an error raised before the fetch) performs no file write and no directory
creation; every call performs at most one file write and at most one
directory creation. -/
theorem getData_frame {α : Type} (m : DataCacheModel α) (fs : FS) (args : α)
    (kwargs : List (String × Bool)) :
    (get_data m fs args kwargs).2.fileWrites ≤ 1 ∧
    (get_data m fs args kwargs).2.mkdirCalls ≤ 1 ∧
    ((get_data m fs args kwargs).2.liveCalls = 0 →
      (get_data m fs args kwargs).2.fileWrites = 0 ∧
      (get_data m fs args kwargs).2.mkdirCalls = 0) := by
  obtain h | h | ⟨c, h⟩ := getData_effects_cases m fs args kwargs
  · rw [h]
    exact ⟨Nat.zero_le 1, Nat.zero_le 1, fun _ => ⟨rfl, rfl⟩⟩
  · rw [h]
    exact ⟨Nat.zero_le 1, Nat.zero_le 1, fun _ => ⟨rfl, rfl⟩⟩
  · rw [h]
    obtain ⟨hk, hw⟩ := fetchAndStore_bounds m fs args
    refine ⟨hw, hk, ?_⟩
    intro h0
    simp at h0

/-- C9 witness: on the concrete cache hit, no write and no mkdir happen. -/
theorem getData_frame_witness :
    (get_data Mhit FShit 0 []).2.fileWrites = 0 ∧
    (get_data Mhit FShit 0 []).2.mkdirCalls = 0 :=
  (getData_frame Mhit FShit 0 []).2.2 rfl

theorem useCacheOf_single (b : Bool) : useCacheOf [("use_cache", b)] = b := by
  unfold useCacheOf
  simp [List.lookup]

/-- C10: get_data consumes only the use_cache keyword argument; every other
keyword argument is discarded without effect (and without raising), so a
call behaves exactly like the call whose only keyword argument is the
popped use_cache value.  The validity predicate and the live fetch receive
the positional arguments only (getValidity and getLive take just args). -/
theorem getData_kwargs {α : Type} (m : DataCacheModel α) (fs : FS) (args : α)
    (kwargs : List (String × Bool)) :
    get_data m fs args kwargs =
      get_data m fs args [("use_cache", useCacheOf kwargs)] := by
  unfold get_data
  rw [useCacheOf_single]
